import Mathlib

/-!
Shallow embedding of the sled-backed DLC storage provider
(dlc-sled-storage-provider/src/lib.rs): the tagged record codec, the
contract and channel stores, the chain monitor slot, and the transactional
update logic.

Byte strings are modelled as lists of naturals; a sled `Tree` is modelled
as an association list with point get/insert/remove and value iteration
(sled iterates in key order; the claims proved below are insensitive to
iteration order, so the association-list order stands in for it).

The payload types (`OfferedContract`, `SignedChannel`, ...) and their
`Serializable` implementations live in the dlc-manager crate, whose
contract/channel modules are not part of the sources; those definitions
are modelled from the spec and marked as such.  Everything in the storage
provider itself (tag values, tag dispatch, sub-tag skipping, tree and
transaction usage) is translated directly from the source.
-/

namespace DlcStorage

/-- Byte strings (sled record values). -/
abbrev Bytes := List Nat

/-- A sled tree: an association list from record keys (contract/channel
ids, modelled as naturals) to record values. -/
abbrev Tree := List (Nat × Bytes)

/-- Point lookup, sled `Tree::get`. -/
def treeGet : Tree → Nat → Option Bytes
  | [], _ => none
  | e :: t, k => if e.1 = k then some e.2 else treeGet t k

/-- Key removal, sled `Tree::remove` and the transactional `remove`. -/
def treeRemove : Tree → Nat → Tree
  | [], _ => []
  | e :: t, k => if e.1 = k then treeRemove t k else e :: treeRemove t k

/-- Insert/overwrite, sled `Tree::insert` and the transactional `insert`. -/
def treeInsert (t : Tree) (k : Nat) (v : Bytes) : Tree :=
  (k, v) :: treeRemove t k

/-- Value iteration, sled `tree.iter().values()`. -/
def treeValues (t : Tree) : List Bytes :=
  t.map (fun e => e.2)

/-- The `dlc_manager::error::Error` variants reachable from the storage
provider, plus `Panic`, which models a Rust panic (`expect`/`unwrap`):
a panic is not a returned `Error` value, so it gets its own constructor. -/
inductive DlcError where
  | IOError : DlcError
  | InvalidState : String → DlcError
  | StorageError : String → DlcError
  | Panic : String → DlcError
  deriving DecidableEq

deriving instance DecidableEq for Except

/-- Modelled from the spec: the `Serializable` payload encodings live in
dlc-manager, outside the provided sources; per spec section 4.1 a payload
is a length-prefixed byte string.  `encList` length-prefixes an opaque
field of a payload. -/
def encList (l : Bytes) : Bytes := l.length :: l

/-- Modelled from the spec: inverse of `encList`; fails on truncated
input, returning the decoded field and the remaining bytes. -/
def decList : Bytes → Option (Bytes × Bytes)
  | [] => none
  | n :: rest => if n ≤ rest.length then some (rest.take n, rest.drop n) else none

/-- Modelled from the spec: `dlc_manager::contract::offered_contract::OfferedContract`;
`id` is the temporary contract id, `data` the rest of the payload, opaque
to the storage layer. -/
structure OfferedContract where
  id : Nat
  data : Bytes
  deriving DecidableEq

def OfferedContract.serialize (o : OfferedContract) : Bytes :=
  o.id :: encList o.data

def OfferedContract.deserialize : Bytes → Option OfferedContract
  | i :: rest =>
    match decList rest with
    | some (d, []) => some ⟨i, d⟩
    | _ => none
  | [] => none

/-- Modelled from the spec: `AcceptedContract`; carries the temporary id
and the assigned permanent id. -/
structure AcceptedContract where
  temporaryId : Nat
  id : Nat
  data : Bytes
  deriving DecidableEq

def AcceptedContract.serialize (a : AcceptedContract) : Bytes :=
  a.temporaryId :: a.id :: encList a.data

def AcceptedContract.deserialize : Bytes → Option AcceptedContract
  | t :: i :: rest =>
    match decList rest with
    | some (d, []) => some ⟨t, i, d⟩
    | _ => none
  | _ => none

/-- Modelled from the spec: `SignedContract`, the payload shared by the
Signed, Confirmed and Refunded phases; carries both ids. -/
structure SignedContract where
  temporaryId : Nat
  id : Nat
  data : Bytes
  deriving DecidableEq

def SignedContract.serialize (s : SignedContract) : Bytes :=
  s.temporaryId :: s.id :: encList s.data

def SignedContract.deserialize : Bytes → Option SignedContract
  | t :: i :: rest =>
    match decList rest with
    | some (d, []) => some ⟨t, i, d⟩
    | _ => none
  | _ => none

/-- Modelled from the spec: `ClosedContract`. -/
structure ClosedContract where
  temporaryId : Nat
  id : Nat
  data : Bytes
  deriving DecidableEq

def ClosedContract.serialize (c : ClosedContract) : Bytes :=
  c.temporaryId :: c.id :: encList c.data

def ClosedContract.deserialize : Bytes → Option ClosedContract
  | t :: i :: rest =>
    match decList rest with
    | some (d, []) => some ⟨t, i, d⟩
    | _ => none
  | _ => none

/-- Modelled from the spec: `FailedAcceptContract`; still addressed by the
temporary id. -/
structure FailedAcceptContract where
  temporaryId : Nat
  data : Bytes
  deriving DecidableEq

def FailedAcceptContract.serialize (f : FailedAcceptContract) : Bytes :=
  f.temporaryId :: encList f.data

def FailedAcceptContract.deserialize : Bytes → Option FailedAcceptContract
  | t :: rest =>
    match decList rest with
    | some (d, []) => some ⟨t, d⟩
    | _ => none
  | [] => none

/-- Modelled from the spec: `FailedSignContract`; carries both ids. -/
structure FailedSignContract where
  temporaryId : Nat
  id : Nat
  data : Bytes
  deriving DecidableEq

def FailedSignContract.serialize (f : FailedSignContract) : Bytes :=
  f.temporaryId :: f.id :: encList f.data

def FailedSignContract.deserialize : Bytes → Option FailedSignContract
  | t :: i :: rest =>
    match decList rest with
    | some (d, []) => some ⟨t, i, d⟩
    | _ => none
  | _ => none

/-- The sixteen sub-states of a Signed channel,
`dlc_manager::channel::signed_channel::SignedChannelStateType`
(type declared outside the sources; variant list as enumerated by the
source's `SignedChannelPrefix` tag table). -/
inductive SignedChannelStateType where
  | Established
  | SettledOffered
  | SettledReceived
  | SettledAccepted
  | SettledConfirmed
  | Settled
  | SettleClosing
  | Closing
  | Closed
  | CounterClosed
  | ClosedPunished
  | CollaborativeCloseOffered
  | CollaborativelyClosed
  | RenewAccepted
  | RenewOffered
  | RenewConfirmed
  deriving DecidableEq

/-- Sub-state tag bytes, source `SignedChannelPrefix` (Established = 1,
..., RenewAccepted = 14, RenewOffered = 15, RenewConfirmed = 16 — the
source numbers RenewAccepted before RenewOffered). -/
def signedChannelStateTag : SignedChannelStateType → Nat
  | .Established => 1
  | .SettledOffered => 2
  | .SettledReceived => 3
  | .SettledAccepted => 4
  | .SettledConfirmed => 5
  | .Settled => 6
  | .SettleClosing => 7
  | .Closing => 8
  | .Closed => 9
  | .CounterClosed => 10
  | .ClosedPunished => 11
  | .CollaborativeCloseOffered => 12
  | .CollaborativelyClosed => 13
  | .RenewAccepted => 14
  | .RenewOffered => 15
  | .RenewConfirmed => 16

/-- Modelled from the spec: partial inverse of the sub-state tag map,
used only inside the spec-modelled `SignedChannel` payload codec. -/
def signedChannelStateOfTag : Nat → Option SignedChannelStateType
  | 1 => some .Established
  | 2 => some .SettledOffered
  | 3 => some .SettledReceived
  | 4 => some .SettledAccepted
  | 5 => some .SettledConfirmed
  | 6 => some .Settled
  | 7 => some .SettleClosing
  | 8 => some .Closing
  | 9 => some .Closed
  | 10 => some .CounterClosed
  | 11 => some .ClosedPunished
  | 12 => some .CollaborativeCloseOffered
  | 13 => some .CollaborativelyClosed
  | 14 => some .RenewAccepted
  | 15 => some .RenewOffered
  | 16 => some .RenewConfirmed
  | _ => none

/-- Modelled from the spec: `dlc_manager::channel::offered_channel::OfferedChannel`;
addressed by its temporary channel id. -/
structure OfferedChannel where
  temporaryChannelId : Nat
  data : Bytes
  deriving DecidableEq

def OfferedChannel.serialize (o : OfferedChannel) : Bytes :=
  o.temporaryChannelId :: encList o.data

def OfferedChannel.deserialize : Bytes → Option OfferedChannel
  | t :: rest =>
    match decList rest with
    | some (d, []) => some ⟨t, d⟩
    | _ => none
  | [] => none

/-- Modelled from the spec: `AcceptedChannel`; carries temporary and
permanent channel ids. -/
structure AcceptedChannel where
  temporaryChannelId : Nat
  channelId : Nat
  data : Bytes
  deriving DecidableEq

def AcceptedChannel.serialize (a : AcceptedChannel) : Bytes :=
  a.temporaryChannelId :: a.channelId :: encList a.data

def AcceptedChannel.deserialize : Bytes → Option AcceptedChannel
  | t :: i :: rest =>
    match decList rest with
    | some (d, []) => some ⟨t, i, d⟩
    | _ => none
  | _ => none

/-- Modelled from the spec: `SignedChannel`; its settlement sub-state
(`state.get_type()` in the source) is part of the payload, alongside both
ids and the rest of the record. -/
structure SignedChannel where
  temporaryChannelId : Nat
  channelId : Nat
  stateType : SignedChannelStateType
  data : Bytes
  deriving DecidableEq

def SignedChannel.serialize (s : SignedChannel) : Bytes :=
  s.temporaryChannelId :: s.channelId :: signedChannelStateTag s.stateType :: encList s.data

def SignedChannel.deserialize : Bytes → Option SignedChannel
  | t :: i :: st :: rest =>
    match signedChannelStateOfTag st with
    | some stt =>
      match decList rest with
      | some (d, []) => some ⟨t, i, stt, d⟩
      | _ => none
    | none => none
  | _ => none

/-- Modelled from the spec: `dlc_manager::channel::FailedAccept` (channel
accept failure record), addressed by the temporary channel id. -/
structure FailedAcceptChannel where
  temporaryChannelId : Nat
  data : Bytes
  deriving DecidableEq

def FailedAcceptChannel.serialize (f : FailedAcceptChannel) : Bytes :=
  f.temporaryChannelId :: encList f.data

def FailedAcceptChannel.deserialize : Bytes → Option FailedAcceptChannel
  | t :: rest =>
    match decList rest with
    | some (d, []) => some ⟨t, d⟩
    | _ => none
  | [] => none

/-- Modelled from the spec: `dlc_manager::channel::FailedSign` (channel
sign failure record), addressed by the permanent channel id. -/
structure FailedSignChannel where
  channelId : Nat
  data : Bytes
  deriving DecidableEq

def FailedSignChannel.serialize (f : FailedSignChannel) : Bytes :=
  f.channelId :: encList f.data

def FailedSignChannel.deserialize : Bytes → Option FailedSignChannel
  | t :: rest =>
    match decList rest with
    | some (d, []) => some ⟨t, d⟩
    | _ => none
  | [] => none

/-- Modelled from the spec: `dlc_manager::chain_monitor::ChainMonitor`;
an opaque recovery snapshot with a round-tripping codec. -/
structure ChainMonitor where
  data : Bytes
  deriving DecidableEq

def ChainMonitor.serialize (m : ChainMonitor) : Bytes :=
  encList m.data

def ChainMonitor.deserialize (b : Bytes) : Option ChainMonitor :=
  match decList b with
  | some (d, []) => some ⟨d⟩
  | _ => none

/-- `dlc_manager::contract::Contract`: the eight contract phases (variant
list and payload sharing as used by the source's codec: Signed, Confirmed
and Refunded all wrap a `SignedContract`). -/
inductive Contract where
  | Offered : OfferedContract → Contract
  | Accepted : AcceptedContract → Contract
  | Signed : SignedContract → Contract
  | Confirmed : SignedContract → Contract
  | Closed : ClosedContract → Contract
  | Refunded : SignedContract → Contract
  | FailedAccept : FailedAcceptContract → Contract
  | FailedSign : FailedSignContract → Contract
  deriving DecidableEq

/-- Modelled from the spec: `Contract::get_id` (dlc-manager, outside the
sources) — the entity's current id: the permanent id once assigned, the
temporary id otherwise (Offered and FailedAccept are still addressed by
the temporary id). -/
def Contract.getId : Contract → Nat
  | .Offered o => o.id
  | .Accepted a => a.id
  | .Signed s => s.id
  | .Confirmed s => s.id
  | .Closed c => c.id
  | .Refunded s => s.id
  | .FailedAccept f => f.temporaryId
  | .FailedSign f => f.id

/-- Modelled from the spec: `Contract::get_temporary_id` (dlc-manager,
outside the sources) — the pre-commitment addressing id. -/
def Contract.getTemporaryId : Contract → Nat
  | .Offered o => o.id
  | .Accepted a => a.temporaryId
  | .Signed s => s.temporaryId
  | .Confirmed s => s.temporaryId
  | .Closed c => c.temporaryId
  | .Refunded s => s.temporaryId
  | .FailedAccept f => f.temporaryId
  | .FailedSign f => f.temporaryId

/-- `dlc_manager::channel::Channel`: the five channel phases. -/
inductive Channel where
  | Offered : OfferedChannel → Channel
  | Accepted : AcceptedChannel → Channel
  | Signed : SignedChannel → Channel
  | FailedAccept : FailedAcceptChannel → Channel
  | FailedSign : FailedSignChannel → Channel
  deriving DecidableEq

/-- Modelled from the spec: `Channel::get_id` (dlc-manager, outside the
sources). -/
def Channel.getId : Channel → Nat
  | .Offered o => o.temporaryChannelId
  | .Accepted a => a.channelId
  | .Signed s => s.channelId
  | .FailedAccept f => f.temporaryChannelId
  | .FailedSign f => f.channelId

/-- Modelled from the spec: `Channel::get_temporary_id` (dlc-manager,
outside the sources); the storage provider only invokes it on Accepted and
Signed channels. -/
def Channel.getTemporaryId : Channel → Nat
  | .Offered o => o.temporaryChannelId
  | .Accepted a => a.temporaryChannelId
  | .Signed s => s.temporaryChannelId
  | .FailedAccept f => f.temporaryChannelId
  | .FailedSign f => f.channelId

/-- Contract tag bytes, source `ContractPrefix::get_prefix`
(Offered = 1, ..., Refunded = 8). -/
def contractTag : Contract → Nat
  | .Offered _ => 1
  | .Accepted _ => 2
  | .Signed _ => 3
  | .Confirmed _ => 4
  | .Closed _ => 5
  | .FailedAccept _ => 6
  | .FailedSign _ => 7
  | .Refunded _ => 8

/-- Channel tag bytes, source `ChannelPrefix::get_prefix`
(Offered = 100, ..., FailedSign = 104). -/
def channelTag : Channel → Nat
  | .Offered _ => 100
  | .Accepted _ => 101
  | .Signed _ => 102
  | .FailedAccept _ => 103
  | .FailedSign _ => 104

/-- The source guard `a @ Contract::Accepted(_) | a @ Contract::Signed(_)`
that decides whether `update_contract`/`insert_contract` remove the
temporary-id record. -/
def contractRemovesTemporary : Contract → Bool
  | .Accepted _ => true
  | .Signed _ => true
  | _ => false

/-- Source `serialize_contract`: inner payload bytes prefixed with the
one-byte contract tag. -/
def serialize_contract (c : Contract) : Bytes :=
  contractTag c ::
    (match c with
     | .Offered o => o.serialize
     | .Accepted a => a.serialize
     | .Signed s | .Confirmed s | .Refunded s => s.serialize
     | .Closed cc => cc.serialize
     | .FailedAccept f => f.serialize
     | .FailedSign f => f.serialize)

/-- Source `deserialize_contract`: reads the tag byte (an empty buffer is
an `io::Error` from `read_exact`, surfaced through `?` as IOError),
dispatches on the `TryFrom<u8>` guard chain of `ContractPrefix`, and wraps
an inner payload decoder failure via `to_storage_error`. -/
def deserialize_contract (buff : Bytes) : Except DlcError Contract :=
  match buff with
  | [] => .error .IOError
  | b :: rest =>
    if b = 1 then
      match OfferedContract.deserialize rest with
      | some o => .ok (.Offered o)
      | none => .error (.StorageError "Serialization error")
    else if b = 2 then
      match AcceptedContract.deserialize rest with
      | some a => .ok (.Accepted a)
      | none => .error (.StorageError "Serialization error")
    else if b = 3 then
      match SignedContract.deserialize rest with
      | some s => .ok (.Signed s)
      | none => .error (.StorageError "Serialization error")
    else if b = 4 then
      match SignedContract.deserialize rest with
      | some s => .ok (.Confirmed s)
      | none => .error (.StorageError "Serialization error")
    else if b = 5 then
      match ClosedContract.deserialize rest with
      | some c => .ok (.Closed c)
      | none => .error (.StorageError "Serialization error")
    else if b = 6 then
      match FailedAcceptContract.deserialize rest with
      | some f => .ok (.FailedAccept f)
      | none => .error (.StorageError "Serialization error")
    else if b = 7 then
      match FailedSignContract.deserialize rest with
      | some f => .ok (.FailedSign f)
      | none => .error (.StorageError "Serialization error")
    else if b = 8 then
      match SignedContract.deserialize rest with
      | some s => .ok (.Refunded s)
      | none => .error (.StorageError "Serialization error")
    else .error (.StorageError "Unknown prefix")

/-- Source `serialize_channel`: inner payload bytes prefixed with the
one-byte channel tag, plus the one-byte sub-state tag for (and only for)
the Signed phase. -/
def serialize_channel (c : Channel) : Bytes :=
  match c with
  | .Offered o => channelTag c :: o.serialize
  | .Accepted a => channelTag c :: a.serialize
  | .Signed s => channelTag c :: signedChannelStateTag s.stateType :: s.serialize
  | .FailedAccept f => channelTag c :: f.serialize
  | .FailedSign f => channelTag c :: f.serialize

/-- Source `deserialize_channel`: reads the tag byte, dispatches on the
`ChannelPrefix` guard chain; in the Signed branch it advances the cursor
by one to skip the sub-state tag byte without inspecting it. -/
def deserialize_channel (buff : Bytes) : Except DlcError Channel :=
  match buff with
  | [] => .error .IOError
  | b :: rest =>
    if b = 100 then
      match OfferedChannel.deserialize rest with
      | some o => .ok (.Offered o)
      | none => .error (.StorageError "Serialization error")
    else if b = 101 then
      match AcceptedChannel.deserialize rest with
      | some a => .ok (.Accepted a)
      | none => .error (.StorageError "Serialization error")
    else if b = 102 then
      match SignedChannel.deserialize (rest.drop 1) with
      | some s => .ok (.Signed s)
      | none => .error (.StorageError "Serialization error")
    else if b = 103 then
      match FailedAcceptChannel.deserialize rest with
      | some f => .ok (.FailedAccept f)
      | none => .error (.StorageError "Serialization error")
    else if b = 104 then
      match FailedSignChannel.deserialize rest with
      | some f => .ok (.FailedSign f)
      | none => .error (.StorageError "Serialization error")
    else .error (.StorageError "Unknown prefix")

/-- The `SledStorageProvider` database: the three sled trees the source
opens (tree ids CONTRACT_TREE = 1, CHANNEL_TREE = 2, CHAIN_MONITOR_TREE =
3 — each tree a separate field here). -/
structure Store where
  contractTree : Tree
  channelTree : Tree
  chainTree : Tree
  deriving DecidableEq

/-- A freshly opened database: all trees empty. -/
def emptyStore : Store := ⟨[], [], []⟩

/-- Outcome of a sled transaction: the store-level guarantee (spec section
5) is all-or-nothing — a transaction either commits its whole effect or
aborts leaving the tree untouched.  The intermediate states inside the
closure are never observable. -/
inductive TxOutcome where
  | committed
  | aborted
  deriving DecidableEq

/-- Source `get_contract`: point lookup in the contract tree; a missing
key is `Ok(None)`, a present record is decoded or its error returned. -/
def get_contract (s : Store) (id : Nat) : Except DlcError (Option Contract) :=
  match treeGet s.contractTree id with
  | some v =>
    match deserialize_contract v with
    | .ok c => .ok (some c)
    | .error e => .error e
  | none => .ok none

/-- Source `get_channel`: point lookup in the channel tree. -/
def get_channel (s : Store) (id : Nat) : Except DlcError (Option Channel) :=
  match treeGet s.channelTree id with
  | some v =>
    match deserialize_channel v with
    | .ok c => .ok (some c)
    | .error e => .error e
  | none => .ok none

/-- Source `get_contracts` helper:
`iter().values().map(deserialize).collect::<Result<_,_>>()` short-circuits
at the first decode error. -/
def contractsFromValues : List Bytes → Except DlcError (List Contract)
  | [] => .ok []
  | v :: vs =>
    match deserialize_contract v with
    | .error e => .error e
    | .ok c =>
      match contractsFromValues vs with
      | .ok l => .ok (c :: l)
      | .error e => .error e

/-- Source `get_contracts`: full scan of the contract tree, decode or fail
per record. -/
def get_contracts (s : Store) : Except DlcError (List Contract) :=
  contractsFromValues (treeValues s.contractTree)

/-- Source `create_contract`: serializes the Offered wrapper and inserts
it at the contract's (temporary) id — an unconditional sled `insert`,
which overwrites any existing record under that key.  Absent a backend
I/O failure (outside this model) the returned `Result` is always `Ok`. -/
def create_contract (s : Store) (o : OfferedContract) : Store :=
  { s with contractTree := treeInsert s.contractTree o.id (serialize_contract (.Offered o)) }

/-- The body of the source `update_contract` transaction closure: for
Accepted and Signed contracts remove the temporary-id record, then insert
the serialized entity at its current id. -/
def updateContractTx (t : Tree) (c : Contract) : Tree :=
  let t1 :=
    match c with
    | .Accepted _ | .Signed _ => treeRemove t c.getTemporaryId
    | _ => t
  treeInsert t1 c.getId (serialize_contract c)

/-- Source `update_contract` with the committed transaction applied. -/
def update_contract (s : Store) (c : Contract) : Store :=
  { s with contractTree := updateContractTx s.contractTree c }

/-- Source `update_contract` under an explicit transaction outcome: a
committed transaction applies both steps, an aborted one leaves the store
in its pre-transaction state (sled's atomicity guarantee). -/
def update_contract_outcome (o : TxOutcome) (s : Store) (c : Contract) : Store :=
  match o with
  | .committed => update_contract s c
  | .aborted => s

/-- Source free function `insert_contract`, called inside the
`upsert_channel` transaction on the transactional tree handle it is
given: the same remove-temporary-then-insert logic as `update_contract`. -/
def insert_contract (t : Tree) (c : Contract) : Tree :=
  let t1 :=
    match c with
    | .Accepted _ | .Signed _ => treeRemove t c.getTemporaryId
    | _ => t
  treeInsert t1 c.getId (serialize_contract c)

/-- The body of the source `upsert_channel` transaction closure.  The
transaction is opened on the CHANNEL tree alone (`self.channel_tree()?
.transaction(...)`), and `insert_contract` is handed that same
transactional handle — so the paired contract record is written into the
channel tree, keyed by the contract's id. -/
def upsertChannelTx (t : Tree) (ch : Channel) (c : Option Contract) : Tree :=
  let t1 :=
    match ch with
    | .Accepted _ | .Signed _ => treeRemove t ch.getTemporaryId
    | _ => t
  let t2 := treeInsert t1 ch.getId (serialize_channel ch)
  match c with
  | some k => insert_contract t2 k
  | none => t2

/-- Source `upsert_channel` with the committed transaction applied; only
the channel tree is touched. -/
def upsert_channel (s : Store) (ch : Channel) (c : Option Contract) : Store :=
  { s with channelTree := upsertChannelTx s.channelTree ch c }

/-- The byte offset arithmetic of the source `get_data_with_prefix`: the
cursor sits after the matched tag bytes and is then advanced by the
optional `consume` count, so the payload decoder reads from
`tag-length + consume`. -/
def scanDecodeInput (pfx : Bytes) (consume : Option Nat) (v : Bytes) : Bytes :=
  v.drop (pfx.length + consume.getD 0)

/-- Source `get_data_with_prefix` over the iterated record values: for
each value, read the first `pfx.length` bytes (`read_exact` panics —
`expect("Error reading prefix")` — on a shorter record); on a tag match,
optionally skip `consume` bytes and decode the payload; a payload that
fails to decode is dropped by `.ok()?` inside the `filter_map`, i.e.
silently skipped, never an error. -/
def scanValues {T : Type} (deser : Bytes → Option T) (pfx : Bytes) (consume : Option Nat) :
    List Bytes → Except DlcError (List T)
  | [] => .ok []
  | v :: vs =>
    if v.length < pfx.length then .error (.Panic "Error reading prefix")
    else if v.take pfx.length = pfx then
      match deser (scanDecodeInput pfx consume v) with
      | some x =>
        match scanValues deser pfx consume vs with
        | .ok l => .ok (x :: l)
        | .error e => .error e
      | none => scanValues deser pfx consume vs
    else scanValues deser pfx consume vs

/-- Source `get_data_with_prefix`. -/
def getDataWithTag {T : Type} (deser : Bytes → Option T) (t : Tree) (pfx : Bytes)
    (consume : Option Nat) : Except DlcError (List T) :=
  scanValues deser pfx consume (treeValues t)

/-- Source `get_signed_contracts`: contract-tree scan with the Signed tag
byte (3). -/
def get_signed_contracts (s : Store) : Except DlcError (List SignedContract) :=
  getDataWithTag SignedContract.deserialize s.contractTree [3] none

/-- Source `get_confirmed_contracts`: contract-tree scan with the
Confirmed tag byte (4). -/
def get_confirmed_contracts (s : Store) : Except DlcError (List SignedContract) :=
  getDataWithTag SignedContract.deserialize s.contractTree [4] none

/-- Source `get_contract_offers`: contract-tree scan with the Offered tag
byte (1). -/
def get_contract_offers (s : Store) : Except DlcError (List OfferedContract) :=
  getDataWithTag OfferedContract.deserialize s.contractTree [1] none

/-- Source `get_offered_channels`: channel-tree scan with the Offered
channel tag byte (100). -/
def get_offered_channels (s : Store) : Except DlcError (List OfferedChannel) :=
  getDataWithTag OfferedChannel.deserialize s.channelTree [100] none

/-- Source `get_signed_channels`: with a sub-state filter the scan matches
the two-byte (tag, sub-tag) head with nothing to skip; without one it
matches the single tag byte and skips one byte before decoding. -/
def get_signed_channels (s : Store) (state : Option SignedChannelStateType) :
    Except DlcError (List SignedChannel) :=
  match state with
  | some st =>
    getDataWithTag SignedChannel.deserialize s.channelTree
      [102, signedChannelStateTag st] none
  | none =>
    getDataWithTag SignedChannel.deserialize s.channelTree [102] (some 1)

/-- Source `persist_chain_monitor`: unconditional insert at the fixed
CHAIN_MONITOR_KEY (4) of the chain monitor tree. -/
def persist_chain_monitor (s : Store) (m : ChainMonitor) : Store :=
  { s with chainTree := treeInsert s.chainTree 4 m.serialize }

/-- Source `get_chain_monitor`: point lookup at the fixed key; missing is
`Ok(None)`, a decode failure is surfaced via `to_storage_error`. -/
def get_chain_monitor (s : Store) : Except DlcError (Option ChainMonitor) :=
  match treeGet s.chainTree 4 with
  | some v =>
    match ChainMonitor.deserialize v with
    | some m => .ok (some m)
    | none => .error (.StorageError "Serialization error")
  | none => .ok none

/-- A store whose contract tree holds exactly the records that
`create_contract`/`update_contract` write for the given contracts, one
record per contract at its current id (scenario setup for the filtered
listing claims). -/
def contractStoreOf (cs : List Contract) : Store :=
  ⟨cs.map (fun c => (c.getId, serialize_contract c)), [], []⟩

/- ------------------------------------------------------------------ -/
/- Theorems: helper lemmas first, then the claim theorems.            -/
/- ------------------------------------------------------------------ -/

theorem treeGet_remove_self (t : Tree) (k : Nat) : treeGet (treeRemove t k) k = none := by
  induction t with
  | nil => rfl
  | cons e t ih =>
    by_cases h : e.1 = k
    · simp [treeRemove, h, ih]
    · simp [treeRemove, treeGet, h, ih]

theorem treeGet_remove_ne (t : Tree) (k k' : Nat) (h : k' ≠ k) :
    treeGet (treeRemove t k) k' = treeGet t k' := by
  induction t with
  | nil => rfl
  | cons e t ih =>
    by_cases he : e.1 = k
    · have hk : ¬ k = k' := fun hc => h hc.symm
      simp [treeRemove, treeGet, he, hk, ih]
    · simp [treeRemove, treeGet, he, ih]

theorem treeGet_insert_self (t : Tree) (k : Nat) (v : Bytes) :
    treeGet (treeInsert t k v) k = some v := by
  simp [treeInsert, treeGet]

theorem treeGet_insert_ne (t : Tree) (k k' : Nat) (v : Bytes) (h : k' ≠ k) :
    treeGet (treeInsert t k v) k' = treeGet t k' := by
  have hk : ¬ k = k' := fun hc => h hc.symm
  simp [treeInsert, treeGet, hk, treeGet_remove_ne t k k' h]

theorem take_append_len (l r : Bytes) : (l ++ r).take l.length = l := by
  induction l with
  | nil => simp
  | cons a l ih => simp [ih]

theorem drop_append_len (l r : Bytes) : (l ++ r).drop l.length = r := by
  induction l with
  | nil => simp
  | cons a l ih => simp [ih]

theorem decList_encList (l : Bytes) : decList (encList l) = some (l, []) := by
  have h1 : (l ++ ([] : Bytes)).take l.length = l := take_append_len l []
  have h2 : (l ++ ([] : Bytes)).drop l.length = [] := drop_append_len l []
  simp at h1 h2
  simp [encList, decList, h1, h2]

theorem offeredContract_roundtrip (o : OfferedContract) :
    OfferedContract.deserialize o.serialize = some o := by
  simp [OfferedContract.serialize, OfferedContract.deserialize, decList_encList]

theorem acceptedContract_roundtrip (a : AcceptedContract) :
    AcceptedContract.deserialize a.serialize = some a := by
  simp [AcceptedContract.serialize, AcceptedContract.deserialize, decList_encList]

theorem signedContract_roundtrip (s : SignedContract) :
    SignedContract.deserialize s.serialize = some s := by
  simp [SignedContract.serialize, SignedContract.deserialize, decList_encList]

theorem closedContract_roundtrip (c : ClosedContract) :
    ClosedContract.deserialize c.serialize = some c := by
  simp [ClosedContract.serialize, ClosedContract.deserialize, decList_encList]

theorem failedAcceptContract_roundtrip (f : FailedAcceptContract) :
    FailedAcceptContract.deserialize f.serialize = some f := by
  simp [FailedAcceptContract.serialize, FailedAcceptContract.deserialize, decList_encList]

theorem failedSignContract_roundtrip (f : FailedSignContract) :
    FailedSignContract.deserialize f.serialize = some f := by
  simp [FailedSignContract.serialize, FailedSignContract.deserialize, decList_encList]

theorem signedChannelStateOfTag_tag (s : SignedChannelStateType) :
    signedChannelStateOfTag (signedChannelStateTag s) = some s := by
  cases s <;> rfl

theorem signedChannelStateTag_injective (a b : SignedChannelStateType)
    (h : signedChannelStateTag a = signedChannelStateTag b) : a = b := by
  revert h
  cases a <;> cases b <;> decide

theorem offeredChannel_roundtrip (o : OfferedChannel) :
    OfferedChannel.deserialize o.serialize = some o := by
  simp [OfferedChannel.serialize, OfferedChannel.deserialize, decList_encList]

theorem acceptedChannel_roundtrip (a : AcceptedChannel) :
    AcceptedChannel.deserialize a.serialize = some a := by
  simp [AcceptedChannel.serialize, AcceptedChannel.deserialize, decList_encList]

theorem signedChannel_roundtrip (s : SignedChannel) :
    SignedChannel.deserialize s.serialize = some s := by
  simp [SignedChannel.serialize, SignedChannel.deserialize, decList_encList,
    signedChannelStateOfTag_tag]

theorem failedAcceptChannel_roundtrip (f : FailedAcceptChannel) :
    FailedAcceptChannel.deserialize f.serialize = some f := by
  simp [FailedAcceptChannel.serialize, FailedAcceptChannel.deserialize, decList_encList]

theorem failedSignChannel_roundtrip (f : FailedSignChannel) :
    FailedSignChannel.deserialize f.serialize = some f := by
  simp [FailedSignChannel.serialize, FailedSignChannel.deserialize, decList_encList]

theorem chainMonitor_roundtrip (m : ChainMonitor) :
    ChainMonitor.deserialize m.serialize = some m := by
  simp [ChainMonitor.serialize, ChainMonitor.deserialize, decList_encList]

theorem deserialize_serialize_contract (c : Contract) :
    deserialize_contract (serialize_contract c) = .ok c := by
  cases c <;>
    simp [serialize_contract, deserialize_contract, contractTag,
      offeredContract_roundtrip, acceptedContract_roundtrip,
      signedContract_roundtrip, closedContract_roundtrip,
      failedAcceptContract_roundtrip, failedSignContract_roundtrip]

theorem deserialize_serialize_channel (c : Channel) :
    deserialize_channel (serialize_channel c) = .ok c := by
  cases c <;>
    simp [serialize_channel, deserialize_channel, channelTag,
      offeredChannel_roundtrip, acceptedChannel_roundtrip,
      signedChannel_roundtrip, failedAcceptChannel_roundtrip,
      failedSignChannel_roundtrip]

theorem get_chain_monitor_persist (s : Store) (m : ChainMonitor) :
    get_chain_monitor (persist_chain_monitor s m) = .ok (some m) := by
  simp [persist_chain_monitor, get_chain_monitor, treeGet_insert_self,
    chainMonitor_roundtrip]

theorem chain_monitor_fold_last (ms : List ChainMonitor) (m : ChainMonitor) :
    ∀ s : Store,
      get_chain_monitor (List.foldl persist_chain_monitor s (ms ++ [m])) = .ok (some m) := by
  induction ms with
  | nil =>
    intro s
    simpa using get_chain_monitor_persist s m
  | cons x xs ih =>
    intro s
    simpa using ih (persist_chain_monitor s x)

theorem scan_offers (cs : List Contract) :
    scanValues OfferedContract.deserialize [1] none (cs.map serialize_contract) =
      .ok (cs.filterMap fun c => match c with | .Offered o => some o | _ => none) := by
  induction cs with
  | nil => rfl
  | cons c cs ih =>
    cases c <;>
      simp [scanValues, serialize_contract, contractTag, scanDecodeInput, ih,
        offeredContract_roundtrip, List.filterMap_cons]

theorem scan_signed (cs : List Contract) :
    scanValues SignedContract.deserialize [3] none (cs.map serialize_contract) =
      .ok (cs.filterMap fun c => match c with | .Signed sc => some sc | _ => none) := by
  induction cs with
  | nil => rfl
  | cons c cs ih =>
    cases c <;>
      simp [scanValues, serialize_contract, contractTag, scanDecodeInput, ih,
        signedContract_roundtrip, List.filterMap_cons]

theorem scan_confirmed (cs : List Contract) :
    scanValues SignedContract.deserialize [4] none (cs.map serialize_contract) =
      .ok (cs.filterMap fun c => match c with | .Confirmed sc => some sc | _ => none) := by
  induction cs with
  | nil => rfl
  | cons c cs ih =>
    cases c <;>
      simp [scanValues, serialize_contract, contractTag, scanDecodeInput, ih,
        signedContract_roundtrip, List.filterMap_cons]

theorem contractStoreOf_values (cs : List Contract) :
    treeValues (contractStoreOf cs).contractTree = cs.map serialize_contract := by
  simp [contractStoreOf, treeValues, List.map_map, Function.comp]

theorem contractsFromValues_error (vs : List Bytes)
    (hv : ∃ v ∈ vs, ∃ e, deserialize_contract v = .error e) :
    ∃ e, contractsFromValues vs = .error e := by
  induction vs with
  | nil => simp at hv
  | cons v vs ih =>
    rcases hv with ⟨w, hw, e, he⟩
    rcases List.mem_cons.mp hw with hwv | hwvs
    · subst hwv
      exact ⟨e, by simp [contractsFromValues, he]⟩
    · cases hd : deserialize_contract v with
      | error e' => exact ⟨e', by simp [contractsFromValues, hd]⟩
      | ok c =>
        rcases ih ⟨w, hwvs, e, he⟩ with ⟨e', he'⟩
        exact ⟨e', by simp [contractsFromValues, hd, he']⟩

theorem scanValues_append_skip {T : Type} (deser : Bytes → Option T) (pfx : Bytes)
    (consume : Option Nat) (vs : List Bytes) (v0 : Bytes)
    (h0 : ¬ v0.length < pfx.length) (h1 : v0.take pfx.length = pfx)
    (h2 : deser (scanDecodeInput pfx consume v0) = none) :
    scanValues deser pfx consume (vs ++ [v0]) = scanValues deser pfx consume vs := by
  induction vs with
  | nil => simp [scanValues, h0, h1, h2]
  | cons v vs ih =>
    simp only [List.cons_append, scanValues, List.append_eq]
    rw [ih]

/-- Claim C4: for every Contract value in any of its eight phases and
every Channel value in any of its five phases (hence, the sub-state being
an arbitrary field of a Signed channel, in each of the sixteen Signed
sub-states), decoding the encoded byte record yields the original value. -/
theorem c4_codec_roundtrip :
    (∀ c : Contract, deserialize_contract (serialize_contract c) = .ok c) ∧
    (∀ ch : Channel, deserialize_channel (serialize_channel ch) = .ok ch) :=
  ⟨deserialize_serialize_contract, deserialize_serialize_channel⟩

/-- Claim C10: when a record's first byte is the Signed channel tag (102),
the decoder skips the second byte without validating it — the result does
not depend on that byte's value, and for any payload encoding a
SignedChannel the decode succeeds with the sub-state taken solely from the
payload, never compared against the sub-tag byte. -/
theorem c10_subtag_skipped_unvalidated :
    (∀ (b b' : Nat) (payload : Bytes),
      deserialize_channel (102 :: b :: payload) = deserialize_channel (102 :: b' :: payload)) ∧
    (∀ (ch : SignedChannel) (b : Nat),
      deserialize_channel (102 :: b :: ch.serialize) = .ok (.Signed ch)) := by
  constructor
  · intro b b' payload
    simp [deserialize_channel]
  · intro ch b
    simp [deserialize_channel, signedChannel_roundtrip]

/-- Claim C2 (amended): `create_contract` performs no duplicate-id check —
for every prior store state it unconditionally inserts the Offered record
at the contract's temporary id, overwriting any existing record under that
key, and the freshly written record is retrievable. -/
theorem c2_create_overwrites (s : Store) (o : OfferedContract) :
    get_contract (create_contract s o) o.id = .ok (some (.Offered o)) := by
  simp [create_contract, get_contract, treeGet_insert_self, deserialize_serialize_contract]

/-- Claim C2 counterexample: with an Offered record already stored under
temporary id 5, `create_contract` for a different contract with the same
id does not fail with InvalidState and does not leave the existing record
unchanged — the old record is replaced by the new one. -/
theorem c2_counterexample :
    get_contract (create_contract (create_contract emptyStore ⟨5, [0]⟩) ⟨5, [1]⟩) 5 =
      .ok (some (.Offered ⟨5, [1]⟩)) ∧
    get_contract (create_contract (create_contract emptyStore ⟨5, [0]⟩) ⟨5, [1]⟩) 5 ≠
      .ok (some (.Offered ⟨5, [0]⟩)) := by
  constructor
  · rfl
  · decide

/-- Claim C8: the chain monitor store is a single overwrite slot — on a
fresh store `get_chain_monitor` returns None; after any sequence of
`persist_chain_monitor` calls it returns exactly the most recent argument
(in particular after two sequential persists only the second snapshot is
retrievable). -/
theorem c8_chain_monitor_slot (s s' : Store) (ms : List ChainMonitor)
    (m m1 m2 : ChainMonitor) :
    get_chain_monitor emptyStore = .ok none ∧
    get_chain_monitor (persist_chain_monitor (persist_chain_monitor s m1) m2) =
      .ok (some m2) ∧
    get_chain_monitor (List.foldl persist_chain_monitor s' (ms ++ [m])) = .ok (some m) :=
  ⟨rfl, get_chain_monitor_persist _ m2, chain_monitor_fold_last ms m s'⟩

/-- Claim C1 (evaluation of the code at the failing input): upserting a
Signed channel (channel id 1) together with its paired Signed contract
(contract id 4) into a fresh store makes the channel visible through
`get_channel`, but `get_contract` on the contract's id returns None — the
source opens the transaction on the channel tree only and
`insert_contract` writes the contract record into that same channel tree,
where `get_channel` then fails on its contract tag byte.  The claimed
paired visibility (`get_contract(k.id)` returning the contract after a
successful `upsert_channel`) does not hold. -/
theorem c1_paired_contract_lost :
    get_channel (upsert_channel emptyStore
        (.Signed ⟨2, 1, .Established, []⟩) (some (.Signed ⟨3, 4, []⟩))) 1 =
      .ok (some (.Signed ⟨2, 1, .Established, []⟩)) ∧
    get_contract (upsert_channel emptyStore
        (.Signed ⟨2, 1, .Established, []⟩) (some (.Signed ⟨3, 4, []⟩))) 4 =
      .ok none ∧
    get_channel (upsert_channel emptyStore
        (.Signed ⟨2, 1, .Established, []⟩) (some (.Signed ⟨3, 4, []⟩))) 4 =
      .error (.StorageError "Unknown prefix") :=
  ⟨rfl, rfl, rfl⟩

/-- Claim C7: a byte sequence whose leading tag byte lies outside the
closed tag set of the entity kind being decoded yields the typed
StorageError "Unknown prefix": the contract decoder rejects every
non-contract tag (channel-range bytes 100-104 included) and the channel
decoder every non-channel tag (contract-range bytes 1-8 included), as do
`get_contract`/`get_channel` on a store holding such a record; no branch
misparses it as a phase and none panics.  The two tag bytes are
quantified independently — each decoder's hypothesis excludes only that
decoder's own tag set. -/
theorem c7_unknown_tag (bc bh : Nat) (rest : Bytes) (k : Nat)
    (hc : bc ∉ ([1, 2, 3, 4, 5, 6, 7, 8] : List Nat))
    (hch : bh ∉ ([100, 101, 102, 103, 104] : List Nat)) :
    deserialize_contract (bc :: rest) = .error (.StorageError "Unknown prefix") ∧
    deserialize_channel (bh :: rest) = .error (.StorageError "Unknown prefix") ∧
    get_contract ⟨[(k, bc :: rest)], [], []⟩ k = .error (.StorageError "Unknown prefix") ∧
    get_channel ⟨[], [(k, bh :: rest)], []⟩ k = .error (.StorageError "Unknown prefix") := by
  simp only [List.mem_cons, List.not_mem_nil, or_false, not_or] at hc hch
  obtain ⟨h1, h2, h3, h4, h5, h6, h7, h8⟩ := hc
  obtain ⟨g1, g2, g3, g4, g5⟩ := hch
  have hdc : deserialize_contract (bc :: rest) = .error (.StorageError "Unknown prefix") := by
    simp [deserialize_contract, h1, h2, h3, h4, h5, h6, h7, h8]
  have hdh : deserialize_channel (bh :: rest) = .error (.StorageError "Unknown prefix") := by
    simp [deserialize_channel, g1, g2, g3, g4, g5]
  refine ⟨hdc, hdh, ?_, ?_⟩
  · simp [get_contract, treeGet, hdc]
  · simp [get_channel, treeGet, hdh]

/-- Witness for C7 at the cross-range tags: the Signed channel tag 102
fed to the contract decoder and the Signed contract tag 3 fed to the
channel decoder (the latter is exactly the record the C1 bug writes into
the channel tree), empty payload, key 0. -/
theorem c7_unknown_tag_witness :
    (102 : Nat) ∉ ([1, 2, 3, 4, 5, 6, 7, 8] : List Nat) ∧
    (3 : Nat) ∉ ([100, 101, 102, 103, 104] : List Nat) ∧
    (deserialize_contract (102 :: []) = .error (.StorageError "Unknown prefix") ∧
     deserialize_channel (3 :: []) = .error (.StorageError "Unknown prefix") ∧
     get_contract ⟨[(0, 102 :: [])], [], []⟩ 0 = .error (.StorageError "Unknown prefix") ∧
     get_channel ⟨[], [(0, 3 :: [])], []⟩ 0 = .error (.StorageError "Unknown prefix")) :=
  ⟨by decide, by decide, c7_unknown_tag 102 3 [] 0 (by decide) (by decide)⟩

/-- Claim C3 (amended): creating an Offered contract with temporary id T
and updating it to a Signed contract with permanent id P leaves exactly
one retrievable record — `get_contract T` is None and `get_contract P` is
the Signed contract; after an aborted transaction the pre-state is
visible (T resolves to the Offered record, P to nothing), and under no
transaction outcome do both keys fail to resolve.  The
delete-of-temporary-id step is performed exactly when the new phase is
Accepted or Signed — not for Confirmed or Refunded (the rest of the
"Signed-family"), nor for any other phase. -/
theorem c3_atomic_rekey (o : OfferedContract) (sc : SignedContract)
    (hT : sc.temporaryId = o.id) (hTP : o.id ≠ sc.id) :
    (get_contract (update_contract (create_contract emptyStore o) (.Signed sc)) o.id =
        .ok none ∧
      get_contract (update_contract (create_contract emptyStore o) (.Signed sc)) sc.id =
        .ok (some (.Signed sc))) ∧
    (get_contract (update_contract_outcome .aborted (create_contract emptyStore o)
          (.Signed sc)) o.id = .ok (some (.Offered o)) ∧
      get_contract (update_contract_outcome .aborted (create_contract emptyStore o)
          (.Signed sc)) sc.id = .ok none) ∧
    (∀ out : TxOutcome,
      ¬(get_contract (update_contract_outcome out (create_contract emptyStore o)
            (.Signed sc)) o.id = .ok none ∧
        get_contract (update_contract_outcome out (create_contract emptyStore o)
            (.Signed sc)) sc.id = .ok none)) ∧
    (∀ (s : Store) (c : Contract), c.getTemporaryId ≠ c.getId →
      treeGet (update_contract s c).contractTree c.getTemporaryId =
        (if contractRemovesTemporary c then none
         else treeGet s.contractTree c.getTemporaryId)) := by
  have hPT : sc.id ≠ o.id := fun hc => hTP hc.symm
  have hcommit1 :
      get_contract (update_contract (create_contract emptyStore o) (.Signed sc)) o.id =
        .ok none := by
    simp only [update_contract, create_contract, updateContractTx, emptyStore,
      Contract.getTemporaryId, Contract.getId, get_contract]
    rw [treeGet_insert_ne _ _ _ _ hTP, hT, treeGet_remove_self]
  have hcommit2 :
      get_contract (update_contract (create_contract emptyStore o) (.Signed sc)) sc.id =
        .ok (some (.Signed sc)) := by
    simp only [update_contract, create_contract, updateContractTx, emptyStore,
      Contract.getTemporaryId, Contract.getId, get_contract]
    rw [treeGet_insert_self]
    simp [deserialize_serialize_contract]
  have habort1 :
      get_contract (update_contract_outcome .aborted (create_contract emptyStore o)
          (.Signed sc)) o.id = .ok (some (.Offered o)) := by
    simp only [update_contract_outcome, create_contract, emptyStore, get_contract]
    rw [treeGet_insert_self]
    simp [deserialize_serialize_contract]
  have habort2 :
      get_contract (update_contract_outcome .aborted (create_contract emptyStore o)
          (.Signed sc)) sc.id = .ok none := by
    simp only [update_contract_outcome, create_contract, emptyStore, get_contract]
    rw [treeGet_insert_ne _ _ _ _ hPT]
    rfl
  refine ⟨⟨hcommit1, hcommit2⟩, ⟨habort1, habort2⟩, ?_, ?_⟩
  · intro out
    cases out with
    | committed =>
      intro h
      rw [show update_contract_outcome .committed (create_contract emptyStore o)
          (.Signed sc) = update_contract (create_contract emptyStore o) (.Signed sc)
        from rfl] at h
      rw [hcommit2] at h
      exact absurd h.2 (by simp)
    | aborted =>
      intro h
      rw [habort1] at h
      exact absurd h.1 (by simp)
  · intro s c hne
    cases c with
    | Accepted a =>
      simp only [Contract.getTemporaryId, Contract.getId] at hne
      simp only [update_contract, updateContractTx, contractRemovesTemporary,
        Contract.getTemporaryId, Contract.getId, if_true]
      rw [treeGet_insert_ne _ _ _ _ hne]
      exact treeGet_remove_self _ _
    | Signed sg =>
      simp only [Contract.getTemporaryId, Contract.getId] at hne
      simp only [update_contract, updateContractTx, contractRemovesTemporary,
        Contract.getTemporaryId, Contract.getId, if_true]
      rw [treeGet_insert_ne _ _ _ _ hne]
      exact treeGet_remove_self _ _
    | Offered ob =>
      simp only [Contract.getTemporaryId, Contract.getId] at hne
      simp only [update_contract, updateContractTx, contractRemovesTemporary,
        Contract.getTemporaryId, Contract.getId, if_false]
      exact treeGet_insert_ne _ _ _ _ hne
    | Confirmed sg =>
      simp only [Contract.getTemporaryId, Contract.getId] at hne
      simp only [update_contract, updateContractTx, contractRemovesTemporary,
        Contract.getTemporaryId, Contract.getId, if_false]
      exact treeGet_insert_ne _ _ _ _ hne
    | Closed cc =>
      simp only [Contract.getTemporaryId, Contract.getId] at hne
      simp only [update_contract, updateContractTx, contractRemovesTemporary,
        Contract.getTemporaryId, Contract.getId, if_false]
      exact treeGet_insert_ne _ _ _ _ hne
    | Refunded sg =>
      simp only [Contract.getTemporaryId, Contract.getId] at hne
      simp only [update_contract, updateContractTx, contractRemovesTemporary,
        Contract.getTemporaryId, Contract.getId, if_false]
      exact treeGet_insert_ne _ _ _ _ hne
    | FailedAccept fa =>
      simp only [Contract.getTemporaryId, Contract.getId] at hne
      simp only [update_contract, updateContractTx, contractRemovesTemporary,
        Contract.getTemporaryId, Contract.getId, if_false]
      exact treeGet_insert_ne _ _ _ _ hne
    | FailedSign fs =>
      simp only [Contract.getTemporaryId, Contract.getId] at hne
      simp only [update_contract, updateContractTx, contractRemovesTemporary,
        Contract.getTemporaryId, Contract.getId, if_false]
      exact treeGet_insert_ne _ _ _ _ hne

/-- Witness for C3: temporary id 5, permanent id 9, and the
delete-exactness conjunct instantiated at an Accepted contract on a
singleton store. -/
theorem c3_atomic_rekey_witness :
    (get_contract (update_contract (create_contract emptyStore ⟨5, []⟩)
          (.Signed ⟨5, 9, []⟩)) 5 = .ok none ∧
      get_contract (update_contract (create_contract emptyStore ⟨5, []⟩)
          (.Signed ⟨5, 9, []⟩)) 9 = .ok (some (.Signed ⟨5, 9, []⟩))) ∧
    (get_contract (update_contract_outcome .aborted (create_contract emptyStore ⟨5, []⟩)
          (.Signed ⟨5, 9, []⟩)) 5 = .ok (some (.Offered ⟨5, []⟩)) ∧
      get_contract (update_contract_outcome .aborted (create_contract emptyStore ⟨5, []⟩)
          (.Signed ⟨5, 9, []⟩)) 9 = .ok none) ∧
    ¬(get_contract (update_contract_outcome .committed (create_contract emptyStore ⟨5, []⟩)
          (.Signed ⟨5, 9, []⟩)) 5 = .ok none ∧
      get_contract (update_contract_outcome .committed (create_contract emptyStore ⟨5, []⟩)
          (.Signed ⟨5, 9, []⟩)) 9 = .ok none) ∧
    treeGet (update_contract ⟨[(7, [0])], [], []⟩
        (.Accepted ⟨7, 8, []⟩)).contractTree 7 =
      (if contractRemovesTemporary (.Accepted ⟨7, 8, []⟩) then none
       else treeGet ([(7, [0])] : Tree) 7) := by
  have h := c3_atomic_rekey ⟨5, []⟩ ⟨5, 9, []⟩ rfl (by decide)
  exact ⟨h.1, h.2.1, h.2.2.1 .committed,
    h.2.2.2 ⟨[(7, [0])], [], []⟩ (.Accepted ⟨7, 8, []⟩) (by decide)⟩

/-- Claim C3 counterexample: updating to a Confirmed contract — part of
the "Signed-family" sharing the SignedContract payload — does not perform
the delete-of-temporary-id step: with a record stored under temporary id
5, `update_contract` with a Confirmed contract (temporary id 5, permanent
id 9) leaves the temporary-id record in place. -/
theorem c3_counterexample :
    get_contract (update_contract (create_contract emptyStore ⟨5, []⟩)
        (.Confirmed ⟨5, 9, []⟩)) 5 = .ok (some (.Offered ⟨5, []⟩)) :=
  rfl

/-- Claim C5: for a store holding the records of an arbitrary list of
contracts with distinct record keys, `get_contract_offers` returns exactly
the Offered ones, `get_signed_contracts` exactly the Signed ones and
`get_confirmed_contracts` exactly the Confirmed ones — no record of a
different phase is included and the counts are exact (the result lists are
precisely the phase-filtered input). -/
theorem c5_filtered_listings (cs : List Contract)
    (_h : (cs.map Contract.getId).Nodup) :
    get_contract_offers (contractStoreOf cs) =
      .ok (cs.filterMap fun c => match c with | .Offered o => some o | _ => none) ∧
    get_signed_contracts (contractStoreOf cs) =
      .ok (cs.filterMap fun c => match c with | .Signed sc => some sc | _ => none) ∧
    get_confirmed_contracts (contractStoreOf cs) =
      .ok (cs.filterMap fun c => match c with | .Confirmed sc => some sc | _ => none) := by
  refine ⟨?_, ?_, ?_⟩
  · rw [get_contract_offers, getDataWithTag, contractStoreOf_values]
    exact scan_offers cs
  · rw [get_signed_contracts, getDataWithTag, contractStoreOf_values]
    exact scan_signed cs
  · rw [get_confirmed_contracts, getDataWithTag, contractStoreOf_values]
    exact scan_confirmed cs

/-- Witness for C5: 1 Offered + 2 Signed + 2 Confirmed contracts with
distinct keys; the Offered listing has exactly the one Offered contract
and the Signed/Confirmed listings exactly the matching two each. -/
theorem c5_filtered_listings_witness :
    (([.Offered ⟨1, []⟩, .Signed ⟨10, 2, []⟩, .Confirmed ⟨12, 4, []⟩,
        .Signed ⟨11, 3, []⟩, .Confirmed ⟨13, 5, []⟩] : List Contract).map
          Contract.getId).Nodup ∧
    get_contract_offers (contractStoreOf
        [.Offered ⟨1, []⟩, .Signed ⟨10, 2, []⟩, .Confirmed ⟨12, 4, []⟩,
         .Signed ⟨11, 3, []⟩, .Confirmed ⟨13, 5, []⟩]) = .ok [⟨1, []⟩] ∧
    get_signed_contracts (contractStoreOf
        [.Offered ⟨1, []⟩, .Signed ⟨10, 2, []⟩, .Confirmed ⟨12, 4, []⟩,
         .Signed ⟨11, 3, []⟩, .Confirmed ⟨13, 5, []⟩]) =
      .ok [⟨10, 2, []⟩, ⟨11, 3, []⟩] ∧
    get_confirmed_contracts (contractStoreOf
        [.Offered ⟨1, []⟩, .Signed ⟨10, 2, []⟩, .Confirmed ⟨12, 4, []⟩,
         .Signed ⟨11, 3, []⟩, .Confirmed ⟨13, 5, []⟩]) =
      .ok [⟨12, 4, []⟩, ⟨13, 5, []⟩] := by
  have h := c5_filtered_listings
    [.Offered ⟨1, []⟩, .Signed ⟨10, 2, []⟩, .Confirmed ⟨12, 4, []⟩,
     .Signed ⟨11, 3, []⟩, .Confirmed ⟨13, 5, []⟩] (by decide)
  exact ⟨by decide, h.1, h.2.1, h.2.2⟩

/-- Claim C6: a Signed channel stored in sub-state `st` is included by
`get_signed_channels (some st)`, excluded by `get_signed_channels (some
st')` for any other sub-state `st'`, and included by
`get_signed_channels none`; and in both query modes the payload decoder
reads from the same offset, two bytes into the record — offset 2 + 0 for
the two-byte (tag, sub-tag) match and offset 1 + 1 for the one-byte match
with one byte skipped. -/
theorem c6_signed_channel_filter (ch : SignedChannel) (st st' : SignedChannelStateType)
    (k : Nat) (hst : ch.stateType = st) (hne : st' ≠ st) :
    get_signed_channels ⟨[], [(k, serialize_channel (.Signed ch))], []⟩ (some st) =
      .ok [ch] ∧
    get_signed_channels ⟨[], [(k, serialize_channel (.Signed ch))], []⟩ (some st') =
      .ok [] ∧
    get_signed_channels ⟨[], [(k, serialize_channel (.Signed ch))], []⟩ none =
      .ok [ch] ∧
    scanDecodeInput [102, signedChannelStateTag st] none (serialize_channel (.Signed ch)) =
      (serialize_channel (.Signed ch)).drop 2 ∧
    scanDecodeInput [102] (some 1) (serialize_channel (.Signed ch)) =
      (serialize_channel (.Signed ch)).drop 2 := by
  subst hst
  have htagne : ¬ signedChannelStateTag ch.stateType = signedChannelStateTag st' :=
    fun hc => hne (signedChannelStateTag_injective _ _ hc).symm
  refine ⟨?_, ?_, ?_, ?_, ?_⟩
  · simp [get_signed_channels, getDataWithTag, treeValues, scanValues, serialize_channel,
      channelTag, scanDecodeInput, signedChannel_roundtrip]
  · simp [get_signed_channels, getDataWithTag, treeValues, scanValues, serialize_channel,
      channelTag, scanDecodeInput, htagne]
  · simp [get_signed_channels, getDataWithTag, treeValues, scanValues, serialize_channel,
      channelTag, scanDecodeInput, signedChannel_roundtrip]
  · simp [scanDecodeInput]
  · simp [scanDecodeInput]

/-- Witness for C6: a Signed channel in sub-state Established, queried
with the Established filter, the Closed filter, and no filter. -/
theorem c6_signed_channel_filter_witness :
    get_signed_channels ⟨[], [(0, serialize_channel (.Signed ⟨7, 8, .Established, [0]⟩))], []⟩
        (some .Established) = .ok [⟨7, 8, .Established, [0]⟩] ∧
    get_signed_channels ⟨[], [(0, serialize_channel (.Signed ⟨7, 8, .Established, [0]⟩))], []⟩
        (some .Closed) = .ok [] ∧
    get_signed_channels ⟨[], [(0, serialize_channel (.Signed ⟨7, 8, .Established, [0]⟩))], []⟩
        none = .ok [⟨7, 8, .Established, [0]⟩] ∧
    scanDecodeInput [102, signedChannelStateTag .Established] none
        (serialize_channel (.Signed ⟨7, 8, .Established, [0]⟩)) =
      (serialize_channel (.Signed ⟨7, 8, .Established, [0]⟩)).drop 2 ∧
    scanDecodeInput [102] (some 1)
        (serialize_channel (.Signed ⟨7, 8, .Established, [0]⟩)) =
      (serialize_channel (.Signed ⟨7, 8, .Established, [0]⟩)).drop 2 :=
  c6_signed_channel_filter ⟨7, 8, .Established, [0]⟩ .Established .Closed 0 rfl (by decide)

/-- Claim C9 (amended): a missing entity yields `Ok(None)` and a point
lookup on a malformed record propagates the decode error, as does the
full `get_contracts` scan; but the filtered listings do not — a
tag-matching record whose payload fails to decode is silently omitted
from the result (shown for the offered-contract listing and the
unfiltered signed-channel listing; all five listings share
`get_data_with_prefix`). -/
theorem c9_error_propagation :
    (∀ (s : Store) (id : Nat), treeGet s.contractTree id = none →
      get_contract s id = .ok none) ∧
    (∀ (s : Store) (id : Nat) (v : Bytes) (e : DlcError),
      treeGet s.contractTree id = some v → deserialize_contract v = .error e →
      get_contract s id = .error e) ∧
    (∀ s : Store,
      (∃ v ∈ treeValues s.contractTree, ∃ e, deserialize_contract v = .error e) →
      ∃ e, get_contracts s = .error e) ∧
    (∀ (t : Tree) (k : Nat) (bad : Bytes), OfferedContract.deserialize bad = none →
      get_contract_offers ⟨t ++ [(k, 1 :: bad)], [], []⟩ =
        get_contract_offers ⟨t, [], []⟩) ∧
    (∀ (t : Tree) (k b : Nat) (bad : Bytes), SignedChannel.deserialize bad = none →
      get_signed_channels ⟨[], t ++ [(k, 102 :: b :: bad)], []⟩ none =
        get_signed_channels ⟨[], t, []⟩ none) := by
  refine ⟨?_, ?_, ?_, ?_, ?_⟩
  · intro s id h
    simp [get_contract, h]
  · intro s id v e h hd
    simp [get_contract, h, hd]
  · intro s hv
    exact contractsFromValues_error _ hv
  · intro t k bad hbad
    simp only [get_contract_offers, getDataWithTag, treeValues, List.map_append,
      List.map_cons, List.map_nil]
    exact scanValues_append_skip _ _ _ _ _ (by simp) (by simp)
      (by simpa [scanDecodeInput] using hbad)
  · intro t k b bad hbad
    simp only [get_signed_channels, getDataWithTag, treeValues, List.map_append,
      List.map_cons, List.map_nil]
    exact scanValues_append_skip _ _ _ _ _ (by simp) (by simp)
      (by simpa [scanDecodeInput] using hbad)

/-- Witness for C9: a missing key on the empty store; a record with
unknown tag 99 for the point lookup and the full scan; and
singleton-store skip instances for the two listings. -/
theorem c9_error_propagation_witness :
    get_contract emptyStore 0 = .ok none ∧
    get_contract ⟨[(0, [99])], [], []⟩ 0 = .error (.StorageError "Unknown prefix") ∧
    (∃ e, get_contracts ⟨[(0, [99])], [], []⟩ = .error e) ∧
    get_contract_offers ⟨[(0, [1])], [], []⟩ = get_contract_offers ⟨[], [], []⟩ ∧
    get_signed_channels ⟨[], [(0, [102, 5])], []⟩ none =
      get_signed_channels ⟨[], [], []⟩ none := by
  refine ⟨c9_error_propagation.1 emptyStore 0 rfl,
    c9_error_propagation.2.1 ⟨[(0, [99])], [], []⟩ 0 [99]
      (.StorageError "Unknown prefix") rfl rfl,
    c9_error_propagation.2.2.1 ⟨[(0, [99])], [], []⟩
      ⟨[99], by simp [treeValues], ⟨.StorageError "Unknown prefix", rfl⟩⟩,
    c9_error_propagation.2.2.2.1 [] 0 [] rfl,
    c9_error_propagation.2.2.2.2 [] 0 5 [] rfl⟩

/-- Claim C9 counterexample: a store holding one record `[1]` whose tag
byte matches the Offered listing's filter but whose (empty) payload fails
to decode; `get_contract_offers` returns `Ok([])` — the malformed
tag-matching record is silently omitted instead of producing the error
the claim requires. -/
theorem c9_counterexample :
    (([1] : Bytes).take 1 = [1] ∧ OfferedContract.deserialize [] = none) ∧
    get_contract_offers ⟨[(0, [1])], [], []⟩ = .ok [] :=
  ⟨⟨rfl, rfl⟩, rfl⟩

end DlcStorage
